import Mathlib

/-!
Verification development for the `AdultBrain` per-region volume statistics
module (`adultbrain.py`).

The module wraps a segmented 3-D brain volume (a numpy float array whose
voxels hold region labels), computes per-region voxel counts with
`np.unique(stack.astype(np.int64), return_counts=True)`, optionally converts
counts to physical volumes via a voxel-size triple, joins each label with a
display name from an overridable lookup table, sorts the resulting table
with a stable (`kind="mergesort"`) pandas sort, caches it, and can write it
out as CSV.

Modelling conventions of this shallow embedding:
* the 3-D numpy array becomes `List (List (List ℚ))` (exactly three nested
  axes, so the `stack.ndim != 3` constructor check holds by construction);
  voxel values are rationals, standing for the exact values stored in the
  float array;
* `astype(np.int64)` on floats is C-style truncation toward zero, embedded
  as `truncTowardZero`;
* a Python dict `{int: str}` becomes a function `Int → Option String`;
  `dict.get(k, default)`, `dict.update`, and dict replacement are embedded
  pointwise;
* `pandas.DataFrame.sort_values(col, ascending=…, kind="mergesort")` is a
  stable sort; pandas' `nargsort` handles `ascending=False` by reversing
  the column before a stable ascending argsort and reversing the resulting
  indexer afterwards, so ties keep their original relative order in both
  directions.  A stable sort is embedded by its characterisation: list the
  distinct keys in the requested direction and emit, for each key, the rows
  carrying that key in their original relative order;
* raising an exception is embedded as `Except.error`; since
  `compute_volumes` mutates `self` only after its `sort_by` validation, the
  embedding returns the state paired with the outcome, with the pre-call
  state returned on the error path exactly as in the source;
* `write_regions` performs file I/O; its embedding returns the table it
  would serialize, or the error raised when nothing has been computed.
-/

/-- Truncation of an exact real (rational) value toward zero, the semantics
of numpy's `astype(np.int64)` applied to a float array of label values. -/
def truncTowardZero (q : ℚ) : Int :=
  if 0 ≤ q then Rat.floor q else Rat.ceil q

/-- A 3-dimensional stack of voxel values, `stack` in the source. -/
abbrev Stack := List (List (List ℚ))

/-- All voxel values of a stack, in row-major order (the flattening numpy
performs implicitly inside `np.unique`). -/
def stackValues (s : Stack) : List ℚ :=
  (s.map (fun plane => plane.flatten)).flatten

/-- All voxel values of a stack truncated to integer labels: the elements of
`stack.astype(np.int64)`. -/
def stackLabels (s : Stack) : List Int :=
  (stackValues s).map truncTowardZero

/-- Sorted list of the distinct elements of a list: the contract of
`np.unique` (ascending order, each value once). -/
def npUnique {α : Type} [DecidableEq α] [LinearOrder α] (xs : List α) : List α :=
  List.insertionSort (· ≤ ·) xs.dedup

/-- Number of voxel positions of the stack whose truncated value equals `r`;
this is the count `np.unique(…, return_counts=True)` reports for label `r`. -/
def voxelCount (s : Stack) (r : Int) : Nat :=
  (stackLabels s).count r

/-- A region lookup table: the embedding of a Python `Dict[int, str]`. -/
abbrev Lut := Int → Option String

/-- Python `dict(base); result.update(upd)` semantics: entries of `upd` win,
every key absent from `upd` keeps its `base` entry. -/
def dictUpdate (base upd : Lut) : Lut :=
  fun k => match upd k with
  | some v => some v
  | none => base k

/-- Entries of `AdultBrain.DEFAULT_REGION_LUT`, transcribed from the source. -/
def defaultRegionEntries : List (Int × String) :=
  [(0, "Clear Label"),
   (1, "A (anterior thalamic nucleus)"),
   (2, "AC (anterior cerebellar tract)"),
   (3, "ALLN (anterior lateral line nerves)"),
   (4, "AON (anterior octaval nucleus)"),
   (5, "APN (accessory pretectal nucleus)"),
   (6, "ATN (anterior tuberal nucleus)"),
   (7, "BSTa (bed nucleus of the stria terminalis, anterior division)"),
   (8, "BSTm (bed nucleus of the stria terminalis, medial division)"),
   (9, "BSTpd (bed nucleus of the stria terminalis, posterior division)"),
   (10, "C (central canal)"),
   (11, "Cans (ansulate commissure)"),
   (12, "Cantd (anterior commissure, dorsal part)"),
   (13, "Cantv (anterior commissure, ventral part)"),
   (14, "CC (cerebellar crest)"),
   (15, "CCe-g (cerebellar corpus, granular layer)"),
   (16, "CCe-m (cerebellar corpus, molecular layer)"),
   (17, "Ccer (cerebellar commissure)"),
   (18, "Cgus (commissure of the secondary gustatory nuclei)"),
   (19, "Chab (habenular commissure)"),
   (20, "Chor (horizontal commissure)"),
   (21, "CIL (central nucleus of the inferior lobe)"),
   (22, "Cinf (commissura infima of Haller)"),
   (23, "CM (mammillary body)"),
   (24, "CO/OT (optic chiasm / optic tract)"),
   (25, "CON (caudal octavolateralis nucleus)"),
   (26, "CP (central posterior thalamic nucleus)"),
   (27, "CPN (central pretectal nucleus)"),
   (28, "CPop (supraoptic commissure)"),
   (29, "Cpost (posterior commissure)"),
   (30, "Ctec (tectal commissure)"),
   (31, "Ctub (commissure of the posterior tuberculum)"),
   (32, "Cven (ventral rhombencephalic commisure)"),
   (33, "DAO (dorsal accessory optic nucleus)"),
   (34, "Dc (central zone of dorsal telencephalon area)"),
   (35, "DH (dorsal horn)"),
   (36, "DIL (diffuse nucleus of the inferior lobe)"),
   (37, "DiV (diencephalic ventricle)"),
   (38, "DIV (trochlear decussation)"),
   (39, "Dl (lateral zone of the dorsal telencephalon)"),
   (40, "Dm (medial zone of dorsal telencephalon)"),
   (41, "DON (descending octaval nucleus)"),
   (42, "DOT (dorsomedial optic tract)"),
   (43, "Dp (posterior zone of dorsal telencephalon area)"),
   (44, "DP (dorsal posterior thalamic nucleus)"),
   (45, "DR (dorsal root)"),
   (46, "DTN (dorsal tegmental nucleus)"),
   (47, "DV (descending trigeminal root)"),
   (48, "E (epiphysis)"),
   (49, "ECL (external cellular layer of olfactory bulb)"),
   (50, "EG (granular eminence)"),
   (51, "EmTl (lateral thalamic eminence)"),
   (52, "EmTm (medial thalamic eminence)"),
   (53, "EmTr (rostral thalamic eminence)"),
   (54, "ENd (entopeduncular nucleus, dorsal part)"),
   (55, "ENv (entopeduncular nucleus, ventral part)"),
   (56, "EW (Edinger-Westphal nucleus)"),
   (57, "Flv (ventral part of lateral funiculus)"),
   (58, "FR (habenulo-interpeduncular tract)"),
   (59, "Fv (ventral funiculus)"),
   (60, "GC (central gray)"),
   (61, "GL (glomerular layer of olfactory bulb)"),
   (62, "Had (dorsal habenular nucleus)"),
   (63, "Hav (ventral habenular nucleus)"),
   (64, "Hc (caudal zone of periventricular hypothalamus)"),
   (65, "Hd (dorsal zone of periventricular hypothalamus)"),
   (66, "Hv (ventral zone of periventricular hypothalamus)"),
   (67, "I (Intermediate thalamic nucleus)"),
   (68, "IAF (inner arcuate fibers)"),
   (69, "ICL (internal cellular layer of olfactory bulb)"),
   (70, "IMRF (intermediate reticular formation)"),
   (71, "IN (Intermediate nucleus)"),
   (72, "IO (inferior olive)"),
   (73, "IR (inferior raphe)"),
   (74, "IRF (inferior reticular formation)"),
   (75, "LC (locus coeruleus)"),
   (76, "LCa (caudal lobe of cerebellum)"),
   (77, "LFB (lateral forebrain bundle)"),
   (78, "LH (lateral hypothalamic nucleus)"),
   (79, "LLF (lateral longitudinal fascicle)"),
   (80, "LOT (lateral olfactory tract)"),
   (81, "LR (lateral recess of diencephalic ventricle)"),
   (82, "LRN (lateral reticular nucleus)"),
   (83, "MAC (Mauthner cell)"),
   (84, "MaON (magnocellular octaval nucleus)"),
   (85, "MFB (medial forebrain bundle)"),
   (86, "MFN (medial funicular nucleus)"),
   (87, "MLF (medial longitudinal fascicle)"),
   (88, "MON (medial octavolateralis nucleus)"),
   (89, "MOT (medial olfactory tract)"),
   (90, "NC (commissural nucleus of Cajal)"),
   (91, "NDV (nucleus of the descending trigeminal root)"),
   (92, "NI (isthmic nucleus)"),
   (93, "NIn (interpeduncular nucleus)"),
   (94, "NLL (nucleus of the lateral lemniscus)"),
   (95, "nLOT-a (nucleus of the lateral olfactory tract, anterior part)"),
   (96, "nLOT-i (nucleus of the lateral olfactory tract, intermediate part)"),
   (97, "nLOT-p (nucleus of the lateral olfactory tract, posterior part)"),
   (98, "NLV (nucleus lateralis valvulae)"),
   (99, "NMLF (nucleus of the medial longitudinal fascicle)"),
   (100, "NR (red nucleus)"),
   (101, "OENc (octavolateralis efferent neurons, caudal part)"),
   (102, "OENr (octavolateralis efferent neurons, rostral part)"),
   (103, "P (posterior thalamic nucleus)"),
   (104, "PC (posterior cerebellar tract)"),
   (105, "PCN (paracommissural nucleus)"),
   (106, "PGa (anterior preglomerular nucleus)"),
   (107, "PGc (caudal preglomerular nucleus)"),
   (108, "PGl (lateral preglomerular nucleus)"),
   (109, "PGm (medial preglomerular nucleus)"),
   (110, "PGZ (periventricular gray zone of optic tectum)"),
   (111, "PL (perilemniscal nucleus)"),
   (112, "PLLN (posterior lateral line nerve)"),
   (113, "PM (magnocellular preoptic nucleus)"),
   (114, "PMg (gigantocellular part of magnocellular preoptic nucleus)"),
   (115, "PO (posterior pretectal nucleus)"),
   (116, "POF (primary olfactory fiber layer)"),
   (117, "PON (posterior octaval nucleus)"),
   (118, "PPa (parvocellular preoptic nucleus, anterior part)"),
   (119, "PPd (periventricular pretectal nucleus, dorsal part)"),
   (120, "PPp (parvocellular preoptic nucleus, posterior part)"),
   (121, "PPv (periventricular pretectal nucleus, ventral part)"),
   (122, "PR (posterior recess of diencephalic ventricle)"),
   (123, "PSm (magnocellular superficial pretectal nucleus)"),
   (124, "PSp (parvocellular superficial pretectal nucleus)"),
   (125, "PTN (posterior tuberal nucleus)"),
   (126, "PVO (paraventricular organ)"),
   (127, "R (rostrolateral nucleus)"),
   (128, "RT (rostral tegmental nucleus)"),
   (129, "RV (rhombencephalic ventricle)"),
   (130, "SC (suprachiasmatic nucleus)"),
   (131, "SCO (subcommissural organ)"),
   (132, "SD (dorsal sac)"),
   (133, "SG (subglomerular nucleus)"),
   (134, "SGN (secondary gustatory nucleus)"),
   (135, "SGT (secondary gustatory tract)"),
   (136, "SO (secondary octaval population)"),
   (137, "SR (superior raphe)"),
   (138, "SRF (superior reticular formation)"),
   (139, "SRN (superior reticular nucleus)"),
   (140, "T (tangential nucleus)"),
   (141, "TBS (bulbo-spinal tract)"),
   (142, "TelV (telencephalic ventricles)"),
   (143, "TeO (optic tectum)"),
   (144, "TeV (tectal ventricle)"),
   (145, "TGN (tertiary gustatory nucleus)"),
   (146, "TL (longitudinal torus)"),
   (147, "TLa (lateral torus)"),
   (148, "TMCa (anterior mesencephalo-cerebellar tract)"),
   (149, "TMCp (posterior mesencephalo-cerebellar tract)"),
   (150, "TPM (pretecto-mammillary tract)"),
   (151, "TPp (periventricular nucleus of posterior tuberculum)"),
   (152, "TSc (central nucleus of semicircular torus)"),
   (153, "TSvl (ventrolateral nucleus of semicircular torus)"),
   (154, "TTB (tecto-bulbar tract)"),
   (155, "TTBc (crossed tecto-bulbar tract)"),
   (156, "TTBr (uncrossed tecto-bulbar tract)"),
   (157, "TVS (vestibulo-spinal tract)"),
   (158, "Val-g (lateral division of valvula cerebelli, granular layer)"),
   (159, "Val-m (lateral division of valvula cerebelli, molecular layer)"),
   (160, "Vam-g (medial division of valvula cerebelli, granular layer)"),
   (161, "Vam-m (medial division of valvula cerebelli, molecular layer)"),
   (162, "VAO (ventral accessory optic nucleus)"),
   (163, "Vas (vascular lacuna of area postrema)"),
   (164, "Vc (central nucleus of ventral telencephalon area)"),
   (165, "Vd-dd (dorsal zone of ventral telencephalon)"),
   (166, "Vd-vd (ventral zone of ventral telencephalon)"),
   (167, "Vdd (dorsal most zone of ventral telencephalon)"),
   (168, "Vl (lateral nucleus of ventral telencephalon area)"),
   (169, "VL (ventrolateral thalamic nucleus)"),
   (170, "VM (ventromedial thalamic nucleus)"),
   (171, "VOT (ventrolateral optic tract)"),
   (172, "Vp (postcommissural nucleus of ventral telencephalon area)"),
   (173, "Vs (supracommissural nucleus of ventral telencephalon area)"),
   (174, "Vv (ventral nucleus of ventral telencephalon area)"),
   (175, "ZL (zona limitans)"),
   (176, "III (oculomotor nerve)"),
   (177, "IIIm (oculomotor nucleus)"),
   (178, "IV (trochlear nerve)"),
   (179, "IVm (trochlear nucleus)"),
   (180, "V (trigeminal nerve)"),
   (181, "Vmd (trigeminal motor nucleus, dorsal part)"),
   (182, "Vmn (mesencephalic nucleus of the trigeminal nerve)"),
   (183, "Vmv (trigeminal motor nucleus, ventral part)"),
   (184, "Vmvr (ventral trigeminal motor root)"),
   (185, "Vsm (primary sensory trigeminal nucleus)"),
   (186, "Vsr (sensory root of the trigeminal nerve)"),
   (187, "VImc (caudal abducens nerve motor nucleus)"),
   (188, "VImr (rostral abducens nerve motor nucleus)"),
   (189, "VIILo (facial lobe)"),
   (190, "VIIm (facial motor nucleus)"),
   (191, "VIImr (facial motor root)"),
   (192, "VIIs (sensory root of the facial nerve)"),
   (193, "VIII (octaval nerve)"),
   (194, "IXLo (glossopharyngeal lobe)"),
   (195, "IXm (glossopharyngeal nerve motor nucleus)"),
   (196, "X (vagal nerve)"),
   (197, "XLo (vagal lobe)"),
   (198, "Xm (vagal motor nucleus)"),
   (900, "UnkD (unknown diencephalon)"),
   (901, "UnkMS (unknown mesencephalon)"),
   (902, "UnkR (unkonwn rhombencephalon)"),
   (903, "UnkSC (unknown spinal cord)"),
   (904, "UnkVT (unknown ventral telencephalon)")]

/-- Lookup in the built-in default LUT; the keys of the source dict literal
are pairwise distinct, so first-match lookup is exact dict semantics. -/
def DEFAULT_REGION_LUT : Lut :=
  fun k => (defaultRegionEntries.find? (fun p => decide (p.1 = k))).map Prod.snd

/-- One row of the computed statistics table: columns `region_id`,
`region_label`, `measure` of the dataframe built in `compute_volumes`. -/
structure Row where
  region_id : Int
  region_label : String
  measure : ℚ
deriving DecidableEq

/-- State of an `AdultBrain` instance: the voxel stack and the four mutable
attributes `_volumes_df`, `_volumes_series`, `_voxel_conversion`,
`_region_lookup` (underscore prefixes dropped). -/
structure AdultBrain where
  stack : Stack
  volumes_df : Option (List Row)
  volumes_series : Option (List (String × ℚ))
  voxel_conversion : Option (ℚ × ℚ × ℚ)
  region_lookup : Lut

/-- Method `set_region_lookup(lut, merge)`: key/value coercion via
`int`/`str` is the identity in this embedding; `merge=True` overlays the
entries onto the current LUT, `merge=False` replaces the LUT entirely. -/
def set_region_lookup (b : AdultBrain) (lut : Lut) (merge : Bool) : AdultBrain :=
  if merge then { b with region_lookup := dictUpdate b.region_lookup lut }
  else { b with region_lookup := lut }

/-- Constructor `AdultBrain.__init__(stack, region_lookup)`: the 3-D shape
check holds by the type of `Stack`; the LUT starts as a copy of the default
and a supplied mapping is merged on top via `set_region_lookup` (a supplied
empty dict is falsy in Python and skips the call, but merging an empty dict
is the identity, so the embedding matches either way). -/
def mkAdultBrain (stack : Stack) (region_lookup : Option Lut) : AdultBrain :=
  let base : AdultBrain :=
    { stack := stack
      volumes_df := none
      volumes_series := none
      voxel_conversion := none
      region_lookup := DEFAULT_REGION_LUT }
  match region_lookup with
  | none => base
  | some lut => set_region_lookup base lut true

/-- Property `region_labels`:
`np.unique(self.stack.astype(np.int64)).tolist()`. -/
def region_labels (b : AdultBrain) : List Int :=
  npUnique (stackLabels b.stack)

/-- Setter of the `voxel_conversion` property (the 3-component check holds
by the tuple type; the `float` coercion is the identity here, and the status
print is I/O glue outside the model). -/
def set_voxel_conversion (b : AdultBrain) (sx sy sz : ℚ) : AdultBrain :=
  { b with voxel_conversion := some (sx, sy, sz) }

/-- Display-name resolution
`self._region_lookup.get(int(r), f"Region {int(r)}")` used for the
`region_label` column: the mapped name when present, otherwise the
synthesized fallback.  Total by construction: it never fails. -/
def regionName (lut : Lut) (r : Int) : String :=
  match lut r with
  | some v => v
  | none => "Region " ++ toString r

/-- The labels whose counts enter the table: all distinct truncated labels,
with label 0 masked out (`labels != 0`) unless `include_zero` is set. -/
def countedLabels (b : AdultBrain) (include_zero : Bool) : List Int :=
  let labels := npUnique (stackLabels b.stack)
  if include_zero then labels else labels.filter (fun r => decide (r ≠ 0))

/-- Measure of one region: its voxel count times `sx*sy*sz` when a voxel
conversion is set (`measures = counts.astype(np.float64) * voxel_volume`),
otherwise the raw voxel count (`measures = counts.astype(np.int64)`). -/
def measureOf (b : AdultBrain) (r : Int) : ℚ :=
  match b.voxel_conversion with
  | some (sx, sy, sz) => (voxelCount b.stack r : ℚ) * (sx * sy * sz)
  | none => (voxelCount b.stack r : ℚ)

/-- One assembled dataframe row for label `r`. -/
def rowOf (b : AdultBrain) (r : Int) : Row :=
  { region_id := r
    region_label := regionName b.region_lookup r
    measure := measureOf b r }

/-- The rows of the dataframe as assembled before sorting, in the ascending
label order produced by `np.unique`. -/
def assembledRows (b : AdultBrain) (include_zero : Bool) : List Row :=
  (countedLabels b include_zero).map (rowOf b)

/-- Sort key selected by the `sort_by` argument: the `region_id` column
(integers, compared via their rational images) or the `measure` column. -/
def sortKey (sort_by : String) (row : Row) : ℚ :=
  if sort_by = "region_id" then (row.region_id : ℚ) else row.measure

/-- Embedding of `df.sort_values(sort_by, ascending=…, kind="mergesort")`, a
stable single-column sort.  The distinct key values are listed in the
requested direction and each key contributes its rows in original relative
order; for `ascending=False` pandas' `nargsort` reverses the column before
the stable ascending argsort and reverses the indexer after it, which keeps
ties in original relative order there as well. -/
def sort_values (key : Row → ℚ) (ascending : Bool) (rows : List Row) : List Row :=
  let ks := npUnique (rows.map key)
  (if ascending then ks else ks.reverse).flatMap
    (fun k => rows.filter (fun row => decide (key row = k)))

/-- Method `compute_volumes(include_zero, sort_by, ascending)` (the
`as_dataframe` switch only selects which cached object is returned and is
immaterial to the table computed).  Validation of `sort_by` happens before
any attribute is assigned, so the error path returns the state unchanged;
the success path caches the sorted dataframe and the series and returns the
dataframe.  The final column rename (`measure` to `Voxels` or to the
scale-bearing title) changes only presentation metadata and is not part of
the row model. -/
def compute_volumes (b : AdultBrain) (include_zero : Bool) (sort_by : String)
    (ascending : Bool) : AdultBrain × Except String (List Row) :=
  if sort_by = "region_id" ∨ sort_by = "measure" then
    let rows := assembledRows b include_zero
    let df := sort_values (sortKey sort_by) ascending rows
    ({ b with
        volumes_df := some df
        volumes_series := some (rows.map (fun row =>
          ("Region " ++ toString row.region_id, row.measure))) },
     Except.ok df)
  else
    (b, Except.error "sort_by must be either region_id or measure")

/-- Calling `compute_volumes` with its Python default arguments
`include_zero=False, sort_by="region_id", ascending=True`. -/
def compute_volumes_defaults (b : AdultBrain) : AdultBrain × Except String (List Row) :=
  compute_volumes b false "region_id" true

/-- Method `write_regions(path)`: raises when `_volumes_df is None`,
otherwise serializes the cached dataframe (the embedding returns the table
that `to_csv` would write). -/
def write_regions (b : AdultBrain) : Except String (List Row) :=
  match b.volumes_df with
  | none => Except.error "No region volumes computed yet. Call compute_volumes() first."
  | some df => Except.ok df

/-- Demonstration stack from the specification scenario: the 2x2x2 volume
[[[1,1],[2,2]],[[0,0],[1,2]]]. -/
def demoStack : Stack :=
  [[[1, 1], [2, 2]], [[0, 0], [1, 2]]]

/-- An `AdultBrain` over the demonstration stack with the default LUT. -/
def demoBrain : AdultBrain :=
  mkAdultBrain demoStack none


/-! Helper lemmas about `npUnique`, the stable sort, and the assembled rows. -/

lemma mem_npUnique {α : Type} [DecidableEq α] [LinearOrder α] {xs : List α} {a : α} :
    a ∈ npUnique xs ↔ a ∈ xs := by
  unfold npUnique
  rw [(List.perm_insertionSort _ _).mem_iff, List.mem_dedup]

lemma nodup_npUnique {α : Type} [DecidableEq α] [LinearOrder α] (xs : List α) :
    (npUnique xs).Nodup := by
  unfold npUnique
  exact ((List.perm_insertionSort _ _).nodup_iff).mpr (List.nodup_dedup xs)

lemma sorted_le_npUnique {α : Type} [DecidableEq α] [LinearOrder α] (xs : List α) :
    List.Sorted (· ≤ ·) (npUnique xs) :=
  List.sorted_insertionSort _ _

lemma sorted_lt_npUnique {α : Type} [DecidableEq α] [LinearOrder α] (xs : List α) :
    List.Sorted (· < ·) (npUnique xs) :=
  (sorted_le_npUnique xs).lt_of_le (nodup_npUnique xs)

lemma flatMap_filter_perm {α β : Type} [DecidableEq β] (key : α → β) :
    ∀ (ks : List β) (xs : List α), ks.Nodup → (∀ a ∈ xs, key a ∈ ks) →
      (ks.flatMap (fun k => xs.filter (fun a => decide (key a = k)))).Perm xs := by
  intro ks
  induction ks with
  | nil =>
    intro xs _ hcov
    have hxs : xs = [] := by
      cases xs with
      | nil => rfl
      | cons a t => exact absurd (hcov a (List.mem_cons_self a t)) (by simp)
    simp [hxs]
  | cons k ks ih =>
    intro xs hnd hcov
    have hknotin : k ∉ ks := (List.nodup_cons.mp hnd).1
    have hndks : ks.Nodup := (List.nodup_cons.mp hnd).2
    rw [List.flatMap_cons]
    have hgroups : ∀ k2 ∈ ks,
        xs.filter (fun a => decide (key a = k2)) =
        (xs.filter (fun a => !decide (key a = k))).filter (fun a => decide (key a = k2)) := by
      intro k2 hk2
      rw [List.filter_filter]
      apply List.filter_congr
      intro a _
      by_cases h : key a = k2
      · have hka : key a ≠ k := by
          intro hak
          exact hknotin ((h.symm.trans hak) ▸ hk2)
        have hk2k : ¬k2 = k := fun he => hka (h.trans he)
        simp [h, hka, hk2k]
      · simp [h]
    have hrest :
        (ks.flatMap (fun k2 => xs.filter (fun a => decide (key a = k2)))) =
        (ks.flatMap (fun k2 =>
          (xs.filter (fun a => !decide (key a = k))).filter (fun a => decide (key a = k2)))) := by
      rw [List.flatMap_def, List.flatMap_def]
      exact congrArg List.flatten (List.map_congr_left hgroups)
    rw [hrest]
    have hcov2 : ∀ a ∈ xs.filter (fun a => !decide (key a = k)), key a ∈ ks := by
      intro a ha
      rcases List.mem_filter.mp ha with ⟨hax, hne⟩
      have := hcov a hax
      simp only [List.mem_cons] at this
      rcases this with h | h
      · exfalso
        simp only [Bool.not_eq_true', decide_eq_false_iff_not] at hne
        exact hne h
      · exact h
    exact List.Perm.trans
      (List.Perm.append_left _ (ih _ hndks hcov2))
      (List.filter_append_perm _ xs)

lemma sort_values_perm (key : Row → ℚ) (ascending : Bool) (rows : List Row) :
    (sort_values key ascending rows).Perm rows := by
  unfold sort_values
  cases ascending with
  | true =>
    simp only [if_pos]
    apply flatMap_filter_perm key
    · exact nodup_npUnique _
    · intro a ha
      exact mem_npUnique.mpr (List.mem_map_of_mem key ha)
  | false =>
    simp only [if_neg]
    apply flatMap_filter_perm key
    · exact (List.nodup_reverse).mpr (nodup_npUnique _)
    · intro a ha
      exact (List.mem_reverse).mpr (mem_npUnique.mpr (List.mem_map_of_mem key ha))

lemma countedLabels_true (b : AdultBrain) :
    countedLabels b true = npUnique (stackLabels b.stack) := rfl

lemma countedLabels_false (b : AdultBrain) :
    countedLabels b false
      = (npUnique (stackLabels b.stack)).filter (fun r => decide (r ≠ 0)) := rfl

lemma countedLabels_sublist (b : AdultBrain) (include_zero : Bool) :
    (countedLabels b include_zero).Sublist (npUnique (stackLabels b.stack)) := by
  cases include_zero with
  | true => exact List.Sublist.refl _
  | false => exact List.filter_sublist _

lemma mem_countedLabels_mem_stack {b : AdultBrain} {include_zero : Bool} {r : Int}
    (h : r ∈ countedLabels b include_zero) : r ∈ stackLabels b.stack :=
  mem_npUnique.mp ((countedLabels_sublist b include_zero).mem h)

lemma countedLabels_nodup (b : AdultBrain) (include_zero : Bool) :
    (countedLabels b include_zero).Nodup :=
  (nodup_npUnique _).sublist (countedLabels_sublist b include_zero)

lemma countedLabels_sorted_lt (b : AdultBrain) (include_zero : Bool) :
    List.Pairwise (· < ·) (countedLabels b include_zero) :=
  (sorted_lt_npUnique (stackLabels b.stack)).sublist (countedLabels_sublist b include_zero)

lemma mem_countedLabels_true {b : AdultBrain} {r : Int} :
    r ∈ countedLabels b true ↔ r ∈ stackLabels b.stack := mem_npUnique

lemma rowOf_region_id (b : AdultBrain) (r : Int) : (rowOf b r).region_id = r := rfl

lemma mem_assembledRows {b : AdultBrain} {include_zero : Bool} {row : Row} :
    row ∈ assembledRows b include_zero
      ↔ ∃ r ∈ countedLabels b include_zero, rowOf b r = row := by
  unfold assembledRows
  exact List.mem_map

lemma assembledRows_pairwise_id (b : AdultBrain) (include_zero : Bool) :
    (assembledRows b include_zero).Pairwise (fun x y => x.region_id < y.region_id) := by
  unfold assembledRows
  rw [List.pairwise_map]
  exact countedLabels_sorted_lt b include_zero

lemma compute_volumes_ok (b : AdultBrain) (include_zero : Bool) (sort_by : String)
    (ascending : Bool) (hsb : sort_by = "region_id" ∨ sort_by = "measure") :
    compute_volumes b include_zero sort_by ascending =
      ({ b with
          volumes_df := some (sort_values (sortKey sort_by) ascending
            (assembledRows b include_zero))
          volumes_series := some ((assembledRows b include_zero).map (fun row =>
            ("Region " ++ toString row.region_id, row.measure))) },
       Except.ok (sort_values (sortKey sort_by) ascending (assembledRows b include_zero))) := by
  unfold compute_volumes
  rw [if_pos hsb]

lemma compute_volumes_err (b : AdultBrain) (include_zero : Bool) (sort_by : String)
    (ascending : Bool) (hsb : ¬(sort_by = "region_id" ∨ sort_by = "measure")) :
    compute_volumes b include_zero sort_by ascending =
      (b, Except.error "sort_by must be either region_id or measure") := by
  unfold compute_volumes
  rw [if_neg hsb]

lemma pairwise_flatMap_groups {R : Row → Row → Prop} (key : Row → ℚ) (ks : List ℚ)
    (rows : List Row)
    (hks : ks.Pairwise (fun k k2 => ∀ x ∈ rows, ∀ y ∈ rows,
      key x = k → key y = k2 → R x y))
    (hrows : rows.Pairwise (fun x y => key x = key y → R x y)) :
    (ks.flatMap (fun k => rows.filter (fun a => decide (key a = k)))).Pairwise R := by
  rw [List.flatMap_def]
  rw [List.pairwise_flatten]
  refine ⟨?_, ?_⟩
  · intro l hl
    rcases List.mem_map.mp hl with ⟨k, _, rfl⟩
    have hsub : (rows.filter (fun a => decide (key a = k))).Pairwise
        (fun x y => key x = key y → R x y) :=
      hrows.sublist (List.filter_sublist rows)
    refine hsub.imp_of_mem ?_
    intro x y hx hy hxy
    have hkx : key x = k := by
      have := (List.mem_filter.mp hx).2
      simpa using this
    have hky : key y = k := by
      have := (List.mem_filter.mp hy).2
      simpa using this
    exact hxy (hkx.trans hky.symm)
  · rw [List.pairwise_map]
    refine hks.imp_of_mem ?_
    intro k k2 _ _ hk x hx y hy
    have hxr := (List.mem_filter.mp hx).1
    have hyr := (List.mem_filter.mp hy).1
    have hkx : key x = k := by
      have := (List.mem_filter.mp hx).2
      simpa using this
    have hky : key y = k2 := by
      have := (List.mem_filter.mp hy).2
      simpa using this
    exact hk x hxr y hyr hkx hky

lemma sort_values_pairwise {R : Row → Row → Prop} (key : Row → ℚ) (ascending : Bool)
    (rows : List Row)
    (hcross : ∀ x y, x ∈ rows → y ∈ rows →
      ((ascending = true → key x < key y) ∧ (ascending = false → key y < key x)) → R x y)
    (hrows : rows.Pairwise (fun x y => key x = key y → R x y)) :
    (sort_values key ascending rows).Pairwise R := by
  unfold sort_values
  cases ascending with
  | true =>
    simp only
    apply pairwise_flatMap_groups key _ _ _ hrows
    have hklt : (npUnique (rows.map key)).Pairwise (· < ·) := sorted_lt_npUnique _
    refine hklt.imp_of_mem ?_
    intro k k2 _ _ hk x hx y hy hkx hky
    exact hcross x y hx hy ⟨fun _ => (by rw [hkx, hky]; exact hk), fun h => (by cases h)⟩
  | false =>
    simp only
    apply pairwise_flatMap_groups key _ _ _ hrows
    have hklt : (npUnique (rows.map key)).reverse.Pairwise (fun k k2 => k2 < k) :=
      (List.pairwise_reverse).mpr (sorted_lt_npUnique _)
    refine hklt.imp_of_mem ?_
    intro k k2 _ _ hk x hx y hy hkx hky
    exact hcross x y hx hy ⟨fun h => (by cases h), fun _ => (by rw [hkx, hky]; exact hk)⟩

lemma sort_values_true (key : Row → ℚ) (rows : List Row) :
    sort_values key true rows
      = (npUnique (rows.map key)).flatMap
          (fun k => rows.filter (fun a => decide (key a = k))) := rfl

lemma sort_values_false (key : Row → ℚ) (rows : List Row) :
    sort_values key false rows
      = (npUnique (rows.map key)).reverse.flatMap
          (fun k => rows.filter (fun a => decide (key a = k))) := rfl

lemma sorted_lt_subset_sublist {α : Type} [LinearOrder α] :
    ∀ (l2 l1 : List α), l1.Pairwise (· < ·) → l2.Pairwise (· < ·) → l1 ⊆ l2 →
      l1.Sublist l2 := by
  intro l2
  induction l2 with
  | nil =>
    intro l1 _ _ hsub
    have h : l1 = [] := by
      cases l1 with
      | nil => rfl
      | cons a s => exact absurd (hsub (List.mem_cons_self a s)) (List.not_mem_nil a)
    simp [h]
  | cons b t ih =>
    intro l1 h1 h2 hsub
    cases l1 with
    | nil => exact List.nil_sublist _
    | cons a s =>
      by_cases hab : a = b
      · subst hab
        refine List.Sublist.cons₂ a (ih s (List.pairwise_cons.mp h1).2
          (List.pairwise_cons.mp h2).2 ?_)
        intro x hx
        have hxmem : x ∈ a :: t := hsub (List.mem_cons_of_mem a hx)
        rcases List.mem_cons.mp hxmem with heq | hxt
        · exact absurd (heq ▸ (List.pairwise_cons.mp h1).1 x hx) (lt_irrefl x)
        · exact hxt
      · have hamem : a ∈ b :: t := hsub (List.mem_cons_self a s)
        have hat : a ∈ t := by
          rcases List.mem_cons.mp hamem with heq | h
          · exact absurd heq hab
          · exact h
        refine List.Sublist.cons b (ih (a :: s) h1 (List.pairwise_cons.mp h2).2 ?_)
        intro x hx
        have hxmem : x ∈ b :: t := hsub hx
        rcases List.mem_cons.mp hxmem with heq | hxt
        · exfalso
          have hba : b < a := (List.pairwise_cons.mp h2).1 a hat
          rcases List.mem_cons.mp hx with heq2 | hxs
          · exact hab (heq2 ▸ heq)
          · have hax : a < x := (List.pairwise_cons.mp h1).1 x hxs
            exact lt_irrefl a (lt_trans hax (heq ▸ hba))
        · exact hxt

lemma flatMap_eq_of_sublist {α β : Type} (f : β → List α) {ks2 ks : List β}
    (hsub : ks2.Sublist ks) :
    ks.Nodup → (∀ k ∈ ks, k ∈ ks2 ∨ f k = []) → ks.flatMap f = ks2.flatMap f := by
  induction hsub with
  | slnil =>
    intro _ _
    rfl
  | cons a hs ih =>
    intro hnd hcase
    have hfa : f a = [] := by
      rcases hcase a (List.mem_cons_self a _) with h | h
      · exact absurd (hs.subset h) (List.nodup_cons.mp hnd).1
      · exact h
    rw [List.flatMap_cons, hfa, List.nil_append]
    exact ih (List.nodup_cons.mp hnd).2 (fun k hk => hcase k (List.mem_cons_of_mem a hk))
  | cons₂ a hs ih =>
    intro hnd hcase
    rw [List.flatMap_cons, List.flatMap_cons]
    refine congrArg (f a ++ ·) (ih (List.nodup_cons.mp hnd).2 ?_)
    intro k hk
    rcases hcase k (List.mem_cons_of_mem a hk) with h | h
    · rcases List.mem_cons.mp h with heq | h2
      · exact absurd (heq ▸ hk) (List.nodup_cons.mp hnd).1
      · exact Or.inl h2
    · exact Or.inr h

lemma sort_values_filter (key : Row → ℚ) (ascending : Bool) (rows : List Row)
    (p : Row → Bool) :
    sort_values key ascending (rows.filter p)
      = (sort_values key ascending rows).filter p := by
  have hcomm : (fun k => List.filter p (rows.filter (fun a => decide (key a = k))))
      = (fun k => (rows.filter p).filter (fun a => decide (key a = k))) := by
    funext k
    exact List.filter_comm p (fun a => decide (key a = k)) rows
  have hks1 : (npUnique ((rows.filter p).map key)).Pairwise (· < ·) := sorted_lt_npUnique _
  have hks2 : (npUnique (rows.map key)).Pairwise (· < ·) := sorted_lt_npUnique _
  have hsubset : npUnique ((rows.filter p).map key) ⊆ npUnique (rows.map key) := by
    intro k hk
    have := mem_npUnique.mp hk
    rcases List.mem_map.mp this with ⟨row, hrow, rfl⟩
    exact mem_npUnique.mpr (List.mem_map_of_mem key ((List.filter_sublist rows).mem hrow))
  have hsublist : (npUnique ((rows.filter p).map key)).Sublist (npUnique (rows.map key)) :=
    sorted_lt_subset_sublist _ _ hks1 hks2 hsubset
  have hcase : ∀ k ∈ npUnique (rows.map key), k ∈ npUnique ((rows.filter p).map key) ∨
      (rows.filter p).filter (fun a => decide (key a = k)) = [] := by
    intro k _
    by_cases hk : k ∈ npUnique ((rows.filter p).map key)
    · exact Or.inl hk
    · refine Or.inr (List.filter_eq_nil_iff.mpr ?_)
      intro a ha hkey
      refine hk (mem_npUnique.mpr ?_)
      have : key a = k := of_decide_eq_true hkey
      exact this ▸ List.mem_map_of_mem key ha
  cases ascending with
  | true =>
    rw [sort_values_true, sort_values_true, List.filter_flatMap]
    rw [show (fun a => List.filter p (rows.filter (fun row => decide (key row = a))))
        = (fun k => (rows.filter p).filter (fun a => decide (key a = k))) from hcomm]
    exact (flatMap_eq_of_sublist _ hsublist (nodup_npUnique _) hcase).symm
  | false =>
    rw [sort_values_false, sort_values_false, List.filter_flatMap]
    rw [show (fun a => List.filter p (rows.filter (fun row => decide (key row = a))))
        = (fun k => (rows.filter p).filter (fun a => decide (key a = k))) from hcomm]
    refine (flatMap_eq_of_sublist _ hsublist.reverse ((List.nodup_reverse).mpr
      (nodup_npUnique _)) ?_).symm
    intro k hk
    rcases hcase k ((List.mem_reverse).mp hk) with h | h
    · exact Or.inl ((List.mem_reverse).mpr h)
    · exact Or.inr h

lemma count_eq_countP_dec (l : List Int) (r : Int) :
    l.count r = l.countP (fun x => decide (x = r)) :=
  List.count_eq_countP r l

lemma voxelCount_eq_countP_values (s : Stack) (r : Int) :
    voxelCount s r
      = (stackValues s).countP (fun q => decide (truncTowardZero q = r)) := by
  unfold voxelCount stackLabels
  rw [count_eq_countP_dec, List.countP_map]
  rfl

lemma sortKey_region_id (row : Row) : sortKey "region_id" row = (row.region_id : ℚ) :=
  if_pos rfl

lemma sortKey_measure (row : Row) : sortKey "measure" row = row.measure :=
  if_neg (by decide)

lemma assembledRows_false_filter (b : AdultBrain) :
    assembledRows b false
      = (assembledRows b true).filter (fun row => decide (row.region_id ≠ 0)) := by
  unfold assembledRows
  rw [countedLabels_true, countedLabels_false, List.filter_map]
  rfl

lemma isOk_ok {ε α : Type} (a : α) : (Except.ok a : Except ε α).isOk = true := rfl

lemma isOk_error {ε α : Type} (e : ε) : (Except.error e : Except ε α).isOk = false := rfl

instance {ε α : Type} [DecidableEq ε] [DecidableEq α] : DecidableEq (Except ε α) := fun a b =>
  match a, b with
  | Except.error e, Except.error f =>
    if h : e = f then isTrue (by rw [h]) else isFalse (fun hc => h (Except.error.inj hc))
  | Except.error _, Except.ok _ => isFalse (fun hc => Except.noConfusion hc)
  | Except.ok _, Except.error _ => isFalse (fun hc => Except.noConfusion hc)
  | Except.ok x, Except.ok y =>
    if h : x = y then isTrue (by rw [h]) else isFalse (fun hc => h (Except.ok.inj hc))

/-- Lookup table used by the witness of the catalog-merge property. -/
def customLut : Lut :=
  fun k => if k = 1 then some "Custom A" else none

/-- Lookup table used by the witness of the name-fallback property. -/
def fallbackLut : Lut :=
  fun k => if k = 7 then some "Seven" else none

/-- The demonstration brain after setting the voxel conversion (2, 3, 1). -/
def demoScaled : AdultBrain :=
  set_voxel_conversion demoBrain 2 3 1

/-- Expected table for the demonstration stack with `include_zero=False`,
sorted by region id ascending. -/
def demoTableDefault : List Row :=
  [{ region_id := 1, region_label := "A (anterior thalamic nucleus)", measure := 3 },
   { region_id := 2, region_label := "AC (anterior cerebellar tract)", measure := 3 }]

/-- Expected table for the demonstration stack with `include_zero=True`,
sorted by region id ascending. -/
def demoTableAll : List Row :=
  [{ region_id := 0, region_label := "Clear Label", measure := 2 },
   { region_id := 1, region_label := "A (anterior thalamic nucleus)", measure := 3 },
   { region_id := 2, region_label := "AC (anterior cerebellar tract)", measure := 3 }]

/-- Expected table for the demonstration stack with `include_zero=True`,
sorted by measure descending: the measure-3 rows keep ascending id order. -/
def demoMeasureDesc : List Row :=
  [{ region_id := 1, region_label := "A (anterior thalamic nucleus)", measure := 3 },
   { region_id := 2, region_label := "AC (anterior cerebellar tract)", measure := 3 },
   { region_id := 0, region_label := "Clear Label", measure := 2 }]


/-! Claim theorems. -/

/-- C8: resolving a display name via the catalog never fails: it returns the
mapped name when the id is present, the synthesized fallback string
"Region <id>" otherwise, and `compute_volumes` labels every row exactly this
way. -/
theorem spec2proof_C8 (lut : Lut) (r : Int) (b : AdultBrain) (include_zero : Bool)
    (sort_by : String) (ascending : Bool) (df : List Row) (row : Row) :
    (∀ n, lut r = some n → regionName lut r = n) ∧
    (lut r = none → regionName lut r = "Region " ++ toString r) ∧
    ((compute_volumes b include_zero sort_by ascending).2 = Except.ok df → row ∈ df →
      row.region_label = regionName b.region_lookup row.region_id) := by
  refine ⟨?_, ?_, ?_⟩
  · intro n h
    unfold regionName
    rw [h]
  · intro h
    unfold regionName
    rw [h]
  · intro hok hrow
    by_cases hsb : sort_by = "region_id" ∨ sort_by = "measure"
    · rw [compute_volumes_ok b include_zero sort_by ascending hsb] at hok
      have hdf := Except.ok.inj hok
      rw [← hdf] at hrow
      have hmem : row ∈ assembledRows b include_zero :=
        (sort_values_perm _ _ _).mem_iff.mp hrow
      rcases mem_assembledRows.mp hmem with ⟨r2, _, rfl⟩
      rfl
    · rw [compute_volumes_err b include_zero sort_by ascending hsb] at hok
      exact absurd hok (by simp)

/-- Witness for C8 at concrete inputs: id 7 is mapped by `fallbackLut` and
resolves to its name, id 8 is unmapped and resolves to "Region 8". -/
theorem spec2proof_C8_witness :
    fallbackLut 7 = some "Seven" ∧ regionName fallbackLut 7 = "Seven" ∧
    fallbackLut 8 = none ∧ regionName fallbackLut 8 = "Region 8" :=
  ⟨rfl,
   (spec2proof_C8 fallbackLut 7 demoBrain false "region_id" true []
     { region_id := 0, region_label := "", measure := 0 }).1 "Seven" rfl,
   rfl,
   (spec2proof_C8 fallbackLut 8 demoBrain false "region_id" true []
     { region_id := 0, region_label := "", measure := 0 }).2.1 rfl⟩

/-- C10: a region-lookup mapping supplied at construction is merged onto the
built-in default catalog (supplied entries win on colliding ids, all other
default entries are retained); `set_region_lookup` with `merge=True` merges
the same way, and full replacement happens exactly with `merge=False`. -/
theorem spec2proof_C10 (stack : Stack) (supplied : Lut) (b : AdultBrain) (lut : Lut)
    (k : Int) :
    (∀ v, supplied k = some v →
      (mkAdultBrain stack (some supplied)).region_lookup k = some v) ∧
    (supplied k = none →
      (mkAdultBrain stack (some supplied)).region_lookup k = DEFAULT_REGION_LUT k) ∧
    ((mkAdultBrain stack none).region_lookup = DEFAULT_REGION_LUT) ∧
    (∀ v, lut k = some v → (set_region_lookup b lut true).region_lookup k = some v) ∧
    (lut k = none → (set_region_lookup b lut true).region_lookup k = b.region_lookup k) ∧
    ((set_region_lookup b lut false).region_lookup = lut) := by
  refine ⟨?_, ?_, rfl, ?_, ?_, rfl⟩
  · intro v h
    show dictUpdate DEFAULT_REGION_LUT supplied k = some v
    unfold dictUpdate
    rw [h]
  · intro h
    show dictUpdate DEFAULT_REGION_LUT supplied k = DEFAULT_REGION_LUT k
    unfold dictUpdate
    rw [h]
  · intro v h
    show dictUpdate b.region_lookup lut k = some v
    unfold dictUpdate
    rw [h]
  · intro h
    show dictUpdate b.region_lookup lut k = b.region_lookup k
    unfold dictUpdate
    rw [h]

/-- Witness for C10 at concrete inputs: the supplied entry for id 1 wins
over the default, the untouched default entry for id 2 is retained. -/
theorem spec2proof_C10_witness :
    customLut 1 = some "Custom A" ∧
    (mkAdultBrain demoStack (some customLut)).region_lookup 1 = some "Custom A" ∧
    customLut 2 = none ∧
    (mkAdultBrain demoStack (some customLut)).region_lookup 2 = DEFAULT_REGION_LUT 2 ∧
    DEFAULT_REGION_LUT 2 = some "AC (anterior cerebellar tract)" :=
  ⟨rfl,
   (spec2proof_C10 demoStack customLut demoBrain customLut 1).1 "Custom A" rfl,
   rfl,
   (spec2proof_C10 demoStack customLut demoBrain customLut 2).2.1 rfl,
   by decide⟩

/-- C3: `compute_volumes` accepts exactly the two recognized sort keys (the
region-id key, spelled "region_id" in the source and "id" in the design
spec, and "measure"); any other value fails with the invalid-argument error,
and the default call sorts by the region-id key. -/
theorem spec2proof_C3 (b : AdultBrain) (include_zero : Bool) (sort_by : String)
    (ascending : Bool) :
    ((compute_volumes b include_zero sort_by ascending).2.isOk = true
      ↔ (sort_by = "region_id" ∨ sort_by = "measure")) ∧
    (¬(sort_by = "region_id" ∨ sort_by = "measure") →
      (compute_volumes b include_zero sort_by ascending).2
        = Except.error "sort_by must be either region_id or measure") ∧
    compute_volumes_defaults b = compute_volumes b false "region_id" true := by
  by_cases hsb : sort_by = "region_id" ∨ sort_by = "measure"
  · refine ⟨?_, fun hn => absurd hsb hn, rfl⟩
    rw [compute_volumes_ok b include_zero sort_by ascending hsb]
    exact iff_of_true rfl hsb
  · refine ⟨?_, ?_, rfl⟩
    · rw [compute_volumes_err b include_zero sort_by ascending hsb]
      exact iff_of_false (by simp [isOk_error]) hsb
    · intro _
      rw [compute_volumes_err b include_zero sort_by ascending hsb]

/-- Witness for C3 at concrete inputs: an unrecognized key fails, each
recognized key succeeds. -/
theorem spec2proof_C3_witness :
    (compute_volumes demoBrain false "voxels" true).2.isOk = false ∧
    (compute_volumes demoBrain false "region_id" true).2.isOk = true ∧
    (compute_volumes demoBrain false "measure" true).2.isOk = true := by
  refine ⟨?_, ?_, ?_⟩
  · have h := (spec2proof_C3 demoBrain false "voxels" true).1
    have hne : ¬("voxels" = "region_id" ∨ "voxels" = "measure") := by decide
    cases hok : (compute_volumes demoBrain false "voxels" true).2.isOk
    · rfl
    · exact absurd (h.mp hok) hne
  · exact (spec2proof_C3 demoBrain false "region_id" true).1.mpr (Or.inl rfl)
  · exact (spec2proof_C3 demoBrain false "measure" true).1.mpr (Or.inr rfl)

/-- C4: `compute_volumes` is atomic with respect to the cached table: on the
error path the whole state, and in particular the cache (even an absent
one), is exactly the pre-call state; a successful call replaces the cache
with the returned table. -/
theorem spec2proof_C4 (b : AdultBrain) (include_zero : Bool) (sort_by : String)
    (ascending : Bool) :
    ((compute_volumes b include_zero sort_by ascending).2.isOk = false →
      (compute_volumes b include_zero sort_by ascending).1 = b) ∧
    (∀ df, (compute_volumes b include_zero sort_by ascending).2 = Except.ok df →
      ((compute_volumes b include_zero sort_by ascending).1).volumes_df = some df) := by
  by_cases hsb : sort_by = "region_id" ∨ sort_by = "measure"
  · rw [compute_volumes_ok b include_zero sort_by ascending hsb]
    refine ⟨fun h => Bool.noConfusion h, ?_⟩
    intro df hdf
    rw [← Except.ok.inj hdf]
  · rw [compute_volumes_err b include_zero sort_by ascending hsb]
    exact ⟨fun _ => rfl, fun df hdf => absurd hdf (by simp)⟩

/-- Witness for C4 at a concrete input: a call with a bad sort key fails and
leaves the state (with its absent cache) untouched; a successful call
stores the returned table. -/
theorem spec2proof_C4_witness :
    (compute_volumes demoBrain false "bogus" true).2.isOk = false ∧
    (compute_volumes demoBrain false "bogus" true).1 = demoBrain ∧
    ((compute_volumes demoBrain false "region_id" true).1).volumes_df
      = some demoTableDefault := by
  have hbad : (compute_volumes demoBrain false "bogus" true).2.isOk = false := rfl
  refine ⟨hbad, (spec2proof_C4 demoBrain false "bogus" true).1 hbad, ?_⟩
  exact (spec2proof_C4 demoBrain false "region_id" true).2 demoTableDefault (by decide)

/-- C7: `write_regions` fails with the not-ready error exactly while no
`compute_volumes` call has succeeded: a fresh instance has no cached table,
a failed compute call leaves the cache unchanged, and after a successful
call `write_regions` returns the most recently computed table. -/
theorem spec2proof_C7 (b : AdultBrain) (stack : Stack) (region_lookup : Option Lut)
    (include_zero : Bool) (sort_by : String) (ascending : Bool) (df : List Row) :
    (b.volumes_df = none → write_regions b
      = Except.error "No region volumes computed yet. Call compute_volumes() first.") ∧
    ((mkAdultBrain stack region_lookup).volumes_df = none) ∧
    ((compute_volumes b include_zero sort_by ascending).2.isOk = false →
      ((compute_volumes b include_zero sort_by ascending).1).volumes_df = b.volumes_df) ∧
    ((compute_volumes b include_zero sort_by ascending).2 = Except.ok df →
      write_regions ((compute_volumes b include_zero sort_by ascending).1)
        = Except.ok df) := by
  refine ⟨?_, ?_, ?_, ?_⟩
  · intro h
    unfold write_regions
    rw [h]
  · cases region_lookup with
    | none => rfl
    | some lut => rfl
  · intro h
    by_cases hsb : sort_by = "region_id" ∨ sort_by = "measure"
    · rw [compute_volumes_ok b include_zero sort_by ascending hsb] at h
      exact Bool.noConfusion h
    · rw [compute_volumes_err b include_zero sort_by ascending hsb]
  · intro h
    by_cases hsb : sort_by = "region_id" ∨ sort_by = "measure"
    · rw [compute_volumes_ok b include_zero sort_by ascending hsb] at h ⊢
      rw [← Except.ok.inj h]
      rfl
    · rw [compute_volumes_err b include_zero sort_by ascending hsb] at h
      exact absurd h (by simp)

/-- Witness for C7 at concrete inputs: the fresh demonstration brain has no
cache and `write_regions` raises; after a successful compute the write
returns exactly the computed table. -/
theorem spec2proof_C7_witness :
    demoBrain.volumes_df = none ∧
    write_regions demoBrain
      = Except.error "No region volumes computed yet. Call compute_volumes() first." ∧
    write_regions ((compute_volumes demoBrain false "region_id" true).1)
      = Except.ok demoTableDefault := by
  refine ⟨rfl, ?_, ?_⟩
  · exact (spec2proof_C7 demoBrain demoStack none false "region_id" true []).1 rfl
  · exact (spec2proof_C7 demoBrain demoStack none false "region_id" true
      demoTableDefault).2.2.2 (by decide)

/-- C2: with a positive voxel scale (sx, sy, sz) set, every computed row's
measure is the region's voxel count times the single scalar sx*sy*sz; with
no scale set, every row's measure is the raw voxel count. -/
theorem spec2proof_C2 (b : AdultBrain) (sx sy sz : ℚ) (include_zero : Bool)
    (sort_by : String) (ascending : Bool)
    (hx : 0 < sx) (hy : 0 < sy) (hz : 0 < sz)
    (hsb : sort_by = "region_id" ∨ sort_by = "measure") :
    ((set_voxel_conversion b sx sy sz).voxel_conversion = some (sx, sy, sz)) ∧
    (b.voxel_conversion = some (sx, sy, sz) →
      ∃ df, (compute_volumes b include_zero sort_by ascending).2 = Except.ok df ∧
        ∀ row ∈ df,
          row.measure = (voxelCount b.stack row.region_id : ℚ) * (sx * sy * sz)) ∧
    (b.voxel_conversion = none →
      ∃ df, (compute_volumes b include_zero sort_by ascending).2 = Except.ok df ∧
        ∀ row ∈ df, row.measure = (voxelCount b.stack row.region_id : ℚ)) := by
  refine ⟨rfl, ?_, ?_⟩
  · intro hvc
    refine ⟨sort_values (sortKey sort_by) ascending (assembledRows b include_zero), ?_, ?_⟩
    · rw [compute_volumes_ok b include_zero sort_by ascending hsb]
    · intro row hrow
      have hmem : row ∈ assembledRows b include_zero :=
        (sort_values_perm _ _ _).mem_iff.mp hrow
      rcases mem_assembledRows.mp hmem with ⟨r, _, rfl⟩
      show measureOf b r = (voxelCount b.stack (rowOf b r).region_id : ℚ) * (sx * sy * sz)
      unfold measureOf
      rw [hvc]
      rfl
  · intro hvc
    refine ⟨sort_values (sortKey sort_by) ascending (assembledRows b include_zero), ?_, ?_⟩
    · rw [compute_volumes_ok b include_zero sort_by ascending hsb]
    · intro row hrow
      have hmem : row ∈ assembledRows b include_zero :=
        (sort_values_perm _ _ _).mem_iff.mp hrow
      rcases mem_assembledRows.mp hmem with ⟨r, _, rfl⟩
      show measureOf b r = (voxelCount b.stack (rowOf b r).region_id : ℚ)
      unfold measureOf
      rw [hvc]
      rfl

/-- Witness for C2 at a concrete input: the demonstration brain with scale
(2, 3, 1) set. -/
theorem spec2proof_C2_witness :
    ((0 : ℚ) < 2) ∧ ((0 : ℚ) < 3) ∧ ((0 : ℚ) < 1) ∧
    demoScaled.voxel_conversion = some (2, 3, 1) ∧
    (∃ df, (compute_volumes demoScaled true "region_id" true).2 = Except.ok df ∧
      ∀ row ∈ df,
        row.measure = (voxelCount demoScaled.stack row.region_id : ℚ) * (2 * 3 * 1)) :=
  ⟨by decide, by decide, by decide, rfl,
   (spec2proof_C2 demoScaled 2 3 1 true "region_id" true (by decide) (by decide)
     (by decide) (Or.inl rfl)).2.1 rfl⟩

/-- C1: with no voxel scale set, for every region id present in the volume
(after truncation), `compute_volumes` with `include_zero=True` yields a
table with exactly one row for that id, whose measure is the number of voxel
positions whose truncated value equals that id. -/
theorem spec2proof_C1 (b : AdultBrain) (sort_by : String) (ascending : Bool) (r : Int)
    (hvc : b.voxel_conversion = none)
    (hsb : sort_by = "region_id" ∨ sort_by = "measure")
    (hr : r ∈ stackLabels b.stack) :
    ∃ df, (compute_volumes b true sort_by ascending).2 = Except.ok df ∧
      df.countP (fun row => decide (row.region_id = r)) = 1 ∧
      ∀ row ∈ df, row.region_id = r →
        row.measure = ((stackValues b.stack).countP
          (fun q => decide (truncTowardZero q = r)) : ℚ) := by
  refine ⟨sort_values (sortKey sort_by) ascending (assembledRows b true), ?_, ?_, ?_⟩
  · rw [compute_volumes_ok b true sort_by ascending hsb]
  · rw [(sort_values_perm _ _ _).countP_eq]
    unfold assembledRows
    rw [List.countP_map]
    have hP : ((fun row => decide (row.region_id = r)) ∘ rowOf b)
        = fun x => decide (x = r) := rfl
    rw [hP, ← count_eq_countP_dec]
    exact List.count_eq_one_of_mem (countedLabels_nodup b true)
      (mem_countedLabels_true.mpr hr)
  · intro row hrow hid
    have hmem : row ∈ assembledRows b true :=
      (sort_values_perm _ _ _).mem_iff.mp hrow
    rcases mem_assembledRows.mp hmem with ⟨r2, _, rfl⟩
    have hr2 : r2 = r := hid
    subst hr2
    show measureOf b r2 = _
    unfold measureOf
    rw [hvc, ← voxelCount_eq_countP_values]

/-- Witness for C1 at a concrete input: region id 1 of the demonstration
stack. -/
theorem spec2proof_C1_witness :
    demoBrain.voxel_conversion = none ∧
    (1 : Int) ∈ stackLabels demoBrain.stack ∧
    (∃ df, (compute_volumes demoBrain true "region_id" true).2 = Except.ok df ∧
      df.countP (fun row => decide (row.region_id = 1)) = 1 ∧
      ∀ row ∈ df, row.region_id = 1 →
        row.measure = ((stackValues demoBrain.stack).countP
          (fun q => decide (truncTowardZero q = 1)) : ℚ)) :=
  ⟨rfl, by decide,
   spec2proof_C1 demoBrain "region_id" true 1 rfl (Or.inl rfl) (by decide)⟩

/-- C9: `region_labels` returns exactly the distinct truncated-toward-zero
values of the volume; the fractional value 2.9999 truncates to label 2 (and
-2.9999 to -2, toward zero); and `compute_volumes` counts over exactly the
same truncated labels, so its id column (sorted ascending) is precisely
`region_labels`. -/
theorem spec2proof_C9 (b : AdultBrain) (df : List Row)
    (hdf : (compute_volumes b true "region_id" true).2 = Except.ok df) :
    (∀ r : Int, r ∈ region_labels b
      ↔ ∃ q ∈ stackValues b.stack, truncTowardZero q = r) ∧
    (region_labels b).Nodup ∧
    truncTowardZero (mkRat 29999 10000) = 2 ∧
    truncTowardZero (mkRat (-29999) 10000) = -2 ∧
    df.map Row.region_id = region_labels b := by
  rw [compute_volumes_ok b true "region_id" true (Or.inl rfl)] at hdf
  have hdfeq := Except.ok.inj hdf
  subst hdfeq
  refine ⟨?_, nodup_npUnique _, by decide, by decide, ?_⟩
  · intro r
    unfold region_labels
    rw [mem_npUnique]
    exact List.mem_map
  · have hperm : ((sort_values (sortKey "region_id") true
        (assembledRows b true)).map Row.region_id).Perm (region_labels b) := by
      have h1 := (sort_values_perm (sortKey "region_id") true
        (assembledRows b true)).map Row.region_id
      have h2 : (assembledRows b true).map Row.region_id = region_labels b := by
        unfold assembledRows
        rw [List.map_map]
        show List.map id (countedLabels b true) = region_labels b
        rw [List.map_id, countedLabels_true]
        rfl
      rw [h2] at h1
      exact h1
    have hsort1 : (sort_values (sortKey "region_id") true
        (assembledRows b true)).Pairwise (fun x y => x.region_id < y.region_id) := by
      apply sort_values_pairwise
      · intro x y _ _ hp
        have hlt := hp.1 rfl
        rw [sortKey_region_id, sortKey_region_id] at hlt
        exact_mod_cast hlt
      · refine (assembledRows_pairwise_id b true).imp ?_
        intro x y h _
        exact h
    haveI : IsAntisymm Int (· < ·) :=
      ⟨fun a c h1 h2 => absurd (h1.trans h2) (lt_irrefl a)⟩
    have hs1 : List.Sorted (· < ·) ((sort_values (sortKey "region_id") true
        (assembledRows b true)).map Row.region_id) := (List.pairwise_map).mpr hsort1
    have hs2 : List.Sorted (· < ·) (region_labels b) := sorted_lt_npUnique _
    exact List.eq_of_perm_of_sorted hperm hs1 hs2

/-- Witness for C9 at a concrete input: the demonstration stack. -/
theorem spec2proof_C9_witness :
    (compute_volumes demoBrain true "region_id" true).2 = Except.ok demoTableAll ∧
    demoTableAll.map Row.region_id = region_labels demoBrain :=
  ⟨by decide, (spec2proof_C9 demoBrain demoTableAll (by decide)).2.2.2.2⟩

/-- C5: sorting by region id ascending yields non-decreasing ids, sorting by
measure descending yields non-increasing measures, and any two rows with
equal sort keys appear in ascending region-id order (the stable sort
preserves the ascending label order of the assembled rows). -/
theorem spec2proof_C5 (b : AdultBrain) (include_zero : Bool) (sort_by : String)
    (ascending : Bool) (df : List Row)
    (hsb : sort_by = "region_id" ∨ sort_by = "measure")
    (hok : (compute_volumes b include_zero sort_by ascending).2 = Except.ok df) :
    (sort_by = "region_id" → ascending = true →
      List.Sorted (· ≤ ·) (df.map Row.region_id)) ∧
    (sort_by = "measure" → ascending = false →
      List.Sorted (fun a c => c ≤ a) (df.map Row.measure)) ∧
    df.Pairwise (fun x y => sortKey sort_by x = sortKey sort_by y →
      x.region_id < y.region_id) := by
  rw [compute_volumes_ok b include_zero sort_by ascending hsb] at hok
  have hdfeq := Except.ok.inj hok
  subst hdfeq
  refine ⟨?_, ?_, ?_⟩
  · intro h1 h2
    subst h1
    subst h2
    refine (List.pairwise_map).mpr ?_
    apply sort_values_pairwise
    · intro x y _ _ hp
      have hlt := hp.1 rfl
      rw [sortKey_region_id, sortKey_region_id] at hlt
      exact (Int.cast_lt.mp hlt).le
    · exact (assembledRows_pairwise_id b include_zero).imp (fun h _ => h.le)
  · intro h1 h2
    subst h1
    subst h2
    refine (List.pairwise_map).mpr ?_
    apply sort_values_pairwise
    · intro x y _ _ hp
      have hlt := hp.2 rfl
      rw [sortKey_measure, sortKey_measure] at hlt
      exact hlt.le
    · refine (assembledRows_pairwise_id b include_zero).imp ?_
      intro x y _ heq
      rw [sortKey_measure, sortKey_measure] at heq
      exact le_of_eq heq.symm
  · apply sort_values_pairwise
    · intro x y _ _ hp hkeq
      exfalso
      cases ascending with
      | true =>
        have hlt := hp.1 rfl
        rw [hkeq] at hlt
        exact lt_irrefl _ hlt
      | false =>
        have hlt := hp.2 rfl
        rw [hkeq] at hlt
        exact lt_irrefl _ hlt
    · refine (assembledRows_pairwise_id b include_zero).imp ?_
      intro x y h _
      exact fun _ => h

/-- Witness for C5 at a concrete input: the demonstration stack sorted by
measure descending; the two measure-3 rows keep ascending id order. -/
theorem spec2proof_C5_witness :
    (compute_volumes demoBrain true "measure" false).2 = Except.ok demoMeasureDesc ∧
    List.Sorted (fun a c => c ≤ a) (demoMeasureDesc.map Row.measure) ∧
    demoMeasureDesc.Pairwise (fun x y => sortKey "measure" x = sortKey "measure" y →
      x.region_id < y.region_id) := by
  have h : (compute_volumes demoBrain true "measure" false).2
      = Except.ok demoMeasureDesc := by decide
  exact ⟨h,
    (spec2proof_C5 demoBrain true "measure" false demoMeasureDesc (Or.inr rfl) h).2.1
      rfl rfl,
    (spec2proof_C5 demoBrain true "measure" false demoMeasureDesc (Or.inr rfl) h).2.2⟩

/-- C6: with identical other arguments, the `include_zero=False` table is
exactly the `include_zero=True` table with the id-0 row removed, every other
row unchanged and in the same order; when 0 does not occur among the
truncated labels the two tables are identical. -/
theorem spec2proof_C6 (b : AdultBrain) (sort_by : String) (ascending : Bool)
    (dft dff : List Row)
    (hsb : sort_by = "region_id" ∨ sort_by = "measure")
    (ht : (compute_volumes b true sort_by ascending).2 = Except.ok dft)
    (hf : (compute_volumes b false sort_by ascending).2 = Except.ok dff) :
    dff = dft.filter (fun row => decide (row.region_id ≠ 0)) ∧
    ((0 : Int) ∉ stackLabels b.stack → dff = dft) := by
  rw [compute_volumes_ok b true sort_by ascending hsb] at ht
  rw [compute_volumes_ok b false sort_by ascending hsb] at hf
  have htt := Except.ok.inj ht
  have hff := Except.ok.inj hf
  subst htt
  subst hff
  constructor
  · rw [assembledRows_false_filter b, sort_values_filter]
  · intro h0
    rw [assembledRows_false_filter b, sort_values_filter]
    apply List.filter_eq_self.mpr
    intro row hrow
    have hmem : row ∈ assembledRows b true :=
      (sort_values_perm _ _ _).mem_iff.mp hrow
    rcases mem_assembledRows.mp hmem with ⟨r, hr, rfl⟩
    have hrs : r ∈ stackLabels b.stack := mem_countedLabels_mem_stack hr
    refine decide_eq_true ?_
    intro hzero
    exact h0 (hzero ▸ hrs)

/-- Witness for C6 at a concrete input: the demonstration stack, where the
zero-excluded table is the all-labels table minus the id-0 row. -/
theorem spec2proof_C6_witness :
    (compute_volumes demoBrain true "region_id" true).2 = Except.ok demoTableAll ∧
    (compute_volumes demoBrain false "region_id" true).2 = Except.ok demoTableDefault ∧
    demoTableDefault = demoTableAll.filter (fun row => decide (row.region_id ≠ 0)) :=
  ⟨by decide, by decide,
   (spec2proof_C6 demoBrain "region_id" true demoTableAll demoTableDefault
     (Or.inl rfl) (by decide) (by decide)).1⟩
